import Mathlib

/-!
Shallow embedding of the validation and request-construction core of the
firecracker-http-client repository (Rust).  Definitions mirror the source
files `src/validation.rs`, `src/models.rs`, `src/logger.rs`, `src/vsock.rs`,
`src/drive.rs`, `src/snapshot.rs`, `src/action.rs` and `src/lib.rs`.
Machine integers are modelled as `Nat`; fallible Rust functions returning
`Result` are modelled as `Except`; the filesystem consulted by the path
validators is an explicit state parameter.
-/

namespace Firecracker

/-- Distinct failure outcomes of the path validators in `src/validation.rs`.
Each constructor corresponds to one `path_validation_error(...)` call site
(the message strings are recovered by `PathError.message`);
`invalidFormat` corresponds to `ValidationError::new("path_invalid_format")`. -/
inductive PathError where
  | emptyPath
  | notAbsolute
  | illegalSegment
  | invalidFormat
  | pathNotFound
  | notWritable
  | parentMissing
  | parentNotWritable
  deriving DecidableEq

/-- The message string attached to each error in `src/validation.rs`. -/
def PathError.message : PathError → String
  | .emptyPath => "Path cannot be empty"
  | .notAbsolute => "Path must be absolute"
  | .illegalSegment => "Path cannot contain parent directory references or null characters"
  | .invalidFormat => "path_invalid_format"
  | .pathNotFound => "Path does not exist"
  | .notWritable => "Path is not writable"
  | .parentMissing => "Parent directory does not exist"
  | .parentNotWritable => "Parent directory is not writable"

/-- Whether `pat` occurs at the head of `l`. -/
def leadMatch : List Char → List Char → Bool
  | [], _ => true
  | _ :: _, [] => false
  | p :: ps, c :: cs => p == c && leadMatch ps cs

/-- Whether `pat` occurs anywhere in `l`. -/
def subSearch (pat : List Char) : List Char → Bool
  | [] => leadMatch pat []
  | c :: cs => leadMatch pat (c :: cs) || subSearch pat cs

/-- Rust `str::contains(pat)` for a string pattern: substring containment. -/
def containsSubstr (s pat : String) : Bool :=
  subSearch pat.data s.data

/-- Rust `str::starts_with('/')`. -/
def startsWithSlash (s : String) : Bool :=
  match s.data with
  | [] => false
  | c :: _ => c == '/'

/-- Rust `str::contains('\0')`. -/
def containsNul (s : String) : Bool :=
  s.data.any (fun c => c == Char.ofNat 0)

/-- Split a character list at every occurrence of `sep`, keeping empty
pieces, as Rust `str::split(sep)` does. -/
def splitOnChar (sep : Char) : List Char → List (List Char)
  | [] => [[]]
  | c :: cs =>
    let r := splitOnChar sep cs
    if c == sep then [] :: r
    else
      match r with
      | [] => [[c]]
      | h :: t => (c :: h) :: t

/-- Split at every `/`. -/
def splitSlash (l : List Char) : List (List Char) :=
  splitOnChar '/' l

instance {ε α : Type} [DecidableEq ε] [DecidableEq α] : DecidableEq (Except ε α) := fun x y =>
  match x, y with
  | .ok a, .ok b =>
    if h : a = b then isTrue (h ▸ rfl) else isFalse (fun hc => h (Except.ok.inj hc))
  | .error a, .error b =>
    if h : a = b then isTrue (h ▸ rfl) else isFalse (fun hc => h (Except.error.inj hc))
  | .ok _, .error _ => isFalse (fun hc => Except.noConfusion hc)
  | .error _, .ok _ => isFalse (fun hc => Except.noConfusion hc)

/-- The `Normal` components of a path string, as produced by Rust
`Path::components()` on an absolute path: slash-separated pieces with empty
pieces and `.` pieces normalized away.  Filesystem entries are keyed by this
list (the root directory is the empty list). -/
def pathSegments (s : String) : List String :=
  ((splitSlash s.data).map String.mk).filter (fun t => t ≠ "" && t ≠ ".")

/-- Rust `Path::new(s).components().count()`.  Counts the `RootDir`
component of an absolute path and the retained leading `CurDir` of a
relative path. -/
def rustComponentCount (s : String) : Nat :=
  if s = "" then 0
  else if startsWithSlash s then 1 + (pathSegments s).length
  else
    match ((splitSlash s.data).map String.mk).filter (fun t => t ≠ "") with
    | [] => 0
    | t :: ts =>
      if t = "." then 1 + (ts.filter (fun u => u ≠ ".")).length
      else ((t :: ts).filter (fun u => u ≠ ".")).length

/-- Embedding of `validate_unix_path` (src/validation.rs lines 11-33):
reject the empty string, then non-absolute paths, then paths containing a
NUL byte or the substring `..`, then paths with zero components. -/
def validateUnixPath (path : String) : Except PathError Unit :=
  if path = "" then .error .emptyPath
  else if ! startsWithSlash path then .error .notAbsolute
  else if containsNul path || containsSubstr path ".." then
    .error .illegalSegment
  else if rustComponentCount path = 0 then .error .invalidFormat
  else .ok ()

/-- The filesystem state consulted by `validate_existing_path` and
`validate_writable_path`, keyed by normalized path components.
`entryExists c` models `Path::exists()` (equivalently, that `metadata()`
succeeds, since Rust implements `exists` as `metadata(..).is_ok()`);
`ownerWritable c` models `metadata().mode() & 0o200 != 0`. -/
structure FsState where
  entryExists : List String → Bool
  ownerWritable : List String → Bool

/-- Embedding of `validate_existing_path` (src/validation.rs lines 36-44):
syntactic check first, then a filesystem existence check. -/
def validateExistingPath (fs : FsState) (path : String) : Except PathError Unit :=
  match validateUnixPath path with
  | .error e => .error e
  | .ok _ =>
    if ! fs.entryExists (pathSegments path) then .error .pathNotFound
    else .ok ()

/-- Embedding of `validate_writable_path` (src/validation.rs lines 47-84):
syntactic check first; if the path exists its owner-write bit must be set;
if it does not exist and has a parent (`Path::parent()` is `None` exactly
for the root, i.e. an empty component list) the parent must exist and have
its owner-write bit set. -/
def validateWritablePath (fs : FsState) (path : String) : Except PathError Unit :=
  match validateUnixPath path with
  | .error e => .error e
  | .ok _ =>
    let c := pathSegments path
    if fs.entryExists c then
      if ! fs.ownerWritable c then .error .notWritable else .ok ()
    else
      if c = [] then .ok ()
      else
        let parent := c.dropLast
        if ! fs.entryExists parent then .error .parentMissing
        else if ! fs.ownerWritable parent then .error .parentNotWritable
        else .ok ()

/-- Rust `str::trim_start_matches('/')`: remove every leading `/`. -/
def trimStartSlash (s : String) : String :=
  String.mk (s.data.dropWhile (fun c => c == '/'))

/-- Rust `str::trim_end_matches('/')`: remove every trailing `/`. -/
def trimEndSlash (s : String) : String :=
  String.mk ((s.data.reverse.dropWhile (fun c => c == '/')).reverse)

/-- The URL string built by `FirecrackerClient::url` (src/lib.rs lines 50-53):
`format!("{}/{}", base_url.trim_end_matches('/'), path.trim_start_matches('/'))`.
The result is then handed unchanged to `Url::parse`. -/
def clientUrlString (base path : String) : String :=
  trimEndSlash base ++ "/" ++ trimStartSlash path

example : validateUnixPath "" = .error .emptyPath := by decide
example : validateUnixPath "relative/x" = .error .notAbsolute := by decide
example : validateUnixPath "/a/../b" = .error .illegalSegment := by decide
example : validateUnixPath "/a/b" = .ok () := by decide
example : validateUnixPath "/a..b" = .error .illegalSegment := by decide
example : validateUnixPath ".." = .error .notAbsolute := by decide
example :
    validateExistingPath ⟨fun _ => false, fun _ => false⟩ "/a/b" = .error .pathNotFound := by
  decide
example :
    validateWritablePath ⟨fun c => c == [], fun _ => true⟩ "/newfile" = .ok () := by
  decide

/-- Token bucket rate-limiter parameters (src/models.rs `TokenBucket`). -/
structure TokenBucket where
  one_time_burst : Option Int
  refill_time : Int
  size : Int

/-- Rate limiter (src/models.rs `RateLimiter`). -/
structure RateLimiter where
  bandwidth : Option TokenBucket
  ops : Option TokenBucket

/-- Block-device descriptor (src/models.rs `Drive`, lines 143-170). -/
structure Drive where
  cache_type : Option String
  drive_id : String
  io_engine : Option String
  is_read_only : Bool
  is_root_device : Bool
  partuuid : Option String
  path_on_host : String
  rate_limiter : Option RateLimiter
  socket : Option String

/-- Logger descriptor (src/logger.rs `Logger`). -/
structure Logger where
  log_path : String
  level : Option String
  show_level : Option Bool
  show_log_origin : Option Bool

/-- Vsock descriptor (src/models.rs `Vsock`, lines 322-332).  The `guest_cid`
field is a `u32`; the struct declares a validator only for `uds_path`. -/
structure Vsock where
  guest_cid : Nat
  uds_path : String
  vsock_id : Option String

/-- Action descriptor (src/action.rs `InstanceActionInfo`). -/
structure InstanceActionInfo where
  action_type : String

/-- Whether every character is a hexadecimal digit, as matched by the
character class `[0-9a-fA-F]` of `PARTUUID_REGEX` (src/models.rs). -/
def isHexChar (c : Char) : Bool :=
  (('0' ≤ c && c ≤ '9') || ('a' ≤ c && c ≤ 'f') || ('A' ≤ c && c ≤ 'F'))

/-- The anchored `PARTUUID_REGEX` of src/models.rs: five hyphen-separated
hex groups of lengths 8-4-4-4-12. -/
def uuidMatch (s : String) : Bool :=
  match splitOnChar '-' s.data with
  | [a, b, c, d, e] =>
    a.length == 8 && b.length == 4 && c.length == 4 && d.length == 4 &&
      e.length == 12 &&
      (a ++ b ++ c ++ d ++ e).all isHexChar
  | _ => false

/-- The anchored `LOG_LEVEL_REGEX` of src/logger.rs:
`^(Error|Warning|Info|Debug)$`. -/
def logLevelMatch (s : String) : Bool :=
  s == "Error" || s == "Warning" || s == "Info" || s == "Debug"

/-- The `validator` crate's derived `Validate::validate` returns `Ok(())`
exactly when no field validator failed, and otherwise the collection of all
field errors. -/
def aggregate (errs : List (String × String)) : Except (List (String × String)) Unit :=
  if errs.isEmpty then .ok () else .error errs

/-- Field errors collected by the derived `Drive::validate` (src/models.rs):
a regex check on `partuuid` when present, and `validate_existing_path` on
`path_on_host`. -/
def driveValidateErrors (fs : FsState) (d : Drive) : List (String × String) :=
  (match d.partuuid with
   | none => []
   | some u => if uuidMatch u then [] else [("partuuid", "Invalid partition UUID format")]) ++
  (match validateExistingPath fs d.path_on_host with
   | .ok _ => []
   | .error e => [("path_on_host", e.message)])

/-- `Drive::validate` (derived by the `validator` crate from src/models.rs). -/
def driveValidate (fs : FsState) (d : Drive) : Except (List (String × String)) Unit :=
  aggregate (driveValidateErrors fs d)

/-- Field errors collected by the derived `Logger::validate` (src/logger.rs):
`validate_writable_path` on `log_path`, and the log-level regex on `level`
when present. -/
def loggerValidateErrors (fs : FsState) (l : Logger) : List (String × String) :=
  (match validateWritablePath fs l.log_path with
   | .ok _ => []
   | .error e => [("log_path", e.message)]) ++
  (match l.level with
   | none => []
   | some lv =>
     if logLevelMatch lv then []
     else [("level", "Invalid log level. Must be one of: Error, Warning, Info, Debug")])

/-- `Logger::validate` (derived by the `validator` crate from src/logger.rs). -/
def loggerValidate (fs : FsState) (l : Logger) : Except (List (String × String)) Unit :=
  aggregate (loggerValidateErrors fs l)

/-- Field errors collected by the derived `Vsock::validate` (src/models.rs):
only `validate_unix_path` on `uds_path`; no validator is declared for
`guest_cid`. -/
def vsockValidateErrors (v : Vsock) : List (String × String) :=
  match validateUnixPath v.uds_path with
  | .ok _ => []
  | .error e => [("uds_path", e.message)]

/-- `Vsock::validate` (derived by the `validator` crate from src/models.rs). -/
def vsockValidate (v : Vsock) : Except (List (String × String)) Unit :=
  aggregate (vsockValidateErrors v)

/-! Dispatch and error mapping (src/lib.rs, src/drive.rs, src/logger.rs,
src/vsock.rs, src/action.rs). -/

/-- A dispatcher response: HTTP status code and raw body text. -/
structure HttpResponse where
  status : Nat
  body : String

/-- Unified client error (src/error.rs `FirecrackerError`), restricted to the
variants reachable from the modelled operations. -/
inductive FcError where
  | httpClient
  | validation (errs : List (String × String))
  | api (status_code : Nat) (message : String)
  deriving DecidableEq

/-- reqwest `StatusCode::is_success()`: the 2xx range. -/
def isSuccessStatus (s : Nat) : Bool :=
  200 ≤ s && s < 300

/-- The response handling shared by the resource operations
(`if !response.status().is_success() { Err(Api { status, text }) } else { Ok(()) }`),
with a transport failure surfacing as an HTTP-client error. -/
def mapDispatch (resp : Except Unit HttpResponse) : Except FcError Unit :=
  match resp with
  | .error _ => .error .httpClient
  | .ok r => if ! isSuccessStatus r.status then .error (.api r.status r.body) else .ok ()

/-- `put_drive` (src/drive.rs lines 13-25): builds the URL and dispatches
immediately; the source contains no call to `drive.validate()`.  The second
component records whether the dispatcher was invoked. -/
def putDrive (resp : Except Unit HttpResponse) (_drive_id : String) (_drive : Drive) :
    Except FcError Unit × Bool :=
  (mapDispatch resp, true)

/-- `put_logger` (src/logger.rs lines 31-45): `logger.validate()?` runs
before any dispatch, so a validation failure returns without invoking the
dispatcher.  The second component records whether the dispatcher was
invoked. -/
def putLogger (fs : FsState) (resp : Except Unit HttpResponse) (l : Logger) :
    Except FcError Unit × Bool :=
  match loggerValidate fs l with
  | .error errs => (.error (.validation errs), false)
  | .ok _ => (mapDispatch resp, true)

/-- `put_vsock` (src/vsock.rs lines 13-27): `vsock.validate()?` runs before
any dispatch. -/
def putVsock (resp : Except Unit HttpResponse) (v : Vsock) :
    Except FcError Unit × Bool :=
  match vsockValidate v with
  | .error errs => (.error (.validation errs), false)
  | .ok _ => (mapDispatch resp, true)

/-- The inherent `FirecrackerClient::create_sync_action` (src/lib.rs lines
55-74): only `StatusCode::NO_CONTENT` (204) is treated as success; every
other status, 2xx included, is wrapped as an Api error. -/
def createSyncAction (resp : Except Unit HttpResponse) (_action : InstanceActionInfo) :
    Except FcError Unit × Bool :=
  (match resp with
   | .error _ => .error .httpClient
   | .ok r => if r.status = 204 then .ok () else .error (.api r.status r.body),
   true)

/-! Helper lemmas about `validateUnixPath`, shared by several claims. -/

theorem startsWithSlash_ne_empty {s : String} (h : startsWithSlash s = true) : s ≠ "" := by
  intro he
  subst he
  exact absurd h (by decide)

theorem containsSubstr_dotdot_ne_empty {s : String} (h : containsSubstr s ".." = true) :
    s ≠ "" := by
  intro he
  subst he
  exact absurd h (by decide)

theorem validateUnixPath_not_slash {s : String} (hne : s ≠ "")
    (h : startsWithSlash s = false) : validateUnixPath s = .error .notAbsolute := by
  simp [validateUnixPath, hne, h]

theorem validateUnixPath_illegal {s : String} (h1 : startsWithSlash s = true)
    (h2 : (containsNul s || containsSubstr s "..") = true) :
    validateUnixPath s = .error .illegalSegment := by
  simp [validateUnixPath, startsWithSlash_ne_empty h1, h1, h2]

/-- Claim C5 counterexample: the empty string does not start with `/` yet
`validate_unix_path` returns the EmptyPath error, not NotAbsolute. -/
theorem unixPath_empty_string_counterexample :
    startsWithSlash "" = false ∧
    validateUnixPath "" = .error .emptyPath ∧
    PathError.emptyPath ≠ PathError.notAbsolute := by
  decide

/-- Claim C5 (amended): every non-empty string that does not start with `/`
fails `validate_unix_path` with the NotAbsolute error. -/
theorem unixPath_notAbsolute (s : String) (hne : s ≠ "")
    (h : startsWithSlash s = false) : validateUnixPath s = .error .notAbsolute :=
  validateUnixPath_not_slash hne h

/-- Witness for the amended claim C5 at the concrete input `"relative/x"`. -/
theorem unixPath_notAbsolute_witness :
    validateUnixPath "relative/x" = .error .notAbsolute :=
  unixPath_notAbsolute "relative/x" (by decide) (by decide)

/-- Claim C6 counterexample: the string `".."` contains a `..` segment but
`validate_unix_path` returns the NotAbsolute error, not IllegalSegment,
because the absolute-path check runs first. -/
theorem unixPath_dotdot_relative_counterexample :
    containsSubstr ".." ".." = true ∧
    validateUnixPath ".." = .error .notAbsolute ∧
    PathError.notAbsolute ≠ PathError.illegalSegment := by
  decide

/-- Claim C6 (amended): every string that starts with `/` and contains a NUL
byte or the substring `..` fails `validate_unix_path` with the IllegalSegment
error. -/
theorem unixPath_illegalSegment (s : String) (h1 : startsWithSlash s = true)
    (h2 : containsNul s = true ∨ containsSubstr s ".." = true) :
    validateUnixPath s = .error .illegalSegment := by
  apply validateUnixPath_illegal h1
  cases h2 with
  | inl h => simp [h]
  | inr h => simp [h]

/-- Witness for the amended claim C6 at the concrete input `"/a/../b"`. -/
theorem unixPath_illegalSegment_witness :
    validateUnixPath "/a/../b" = .error .illegalSegment :=
  unixPath_illegalSegment "/a/../b" (by decide) (Or.inr (by decide))

/-- Claim C9: `validate_unix_path` rejects every string containing `..` as a
substring (with some error), and when the string is absolute the failure is
precisely the IllegalSegment error, even when `..` sits inside a single
component rather than forming a parent-directory segment. -/
theorem unixPath_rejects_dotdot_substring (s : String)
    (h : containsSubstr s ".." = true) :
    (∃ e, validateUnixPath s = .error e) ∧
    (startsWithSlash s = true → validateUnixPath s = .error .illegalSegment) := by
  constructor
  · by_cases hs : startsWithSlash s = true
    · exact ⟨_, validateUnixPath_illegal hs (by simp [h])⟩
    · have hs2 : startsWithSlash s = false := by
        cases hb : startsWithSlash s
        · rfl
        · exact absurd hb hs
      exact ⟨_, validateUnixPath_not_slash (containsSubstr_dotdot_ne_empty h) hs2⟩
  · intro hs
    exact validateUnixPath_illegal hs (by simp [h])

/-- Witness for claim C9 at the concrete input `"/a..b"`, whose `..` lies
inside a single path component. -/
theorem unixPath_rejects_dotdot_substring_witness :
    validateUnixPath "/a..b" = .error .illegalSegment :=
  (unixPath_rejects_dotdot_substring "/a..b" (by decide)).2 (by decide)

/-- Claim C4: `validate_existing_path p` succeeds iff `p` passes
`validate_unix_path` and a filesystem entry exists at `p`; and when
`validate_unix_path` fails, `validate_existing_path` fails with the same
syntactic error for every filesystem state (the filesystem is never
consulted). -/
theorem existingPath_spec (fs : FsState) (p : String) :
    (validateExistingPath fs p = .ok () ↔
      (validateUnixPath p = .ok () ∧ fs.entryExists (pathSegments p) = true)) ∧
    (∀ e, validateUnixPath p = .error e →
      ∀ fs2 : FsState, validateExistingPath fs2 p = .error e) := by
  constructor
  · unfold validateExistingPath
    cases hv : validateUnixPath p with
    | error e => simp [hv]
    | ok u =>
      cases u
      by_cases he : fs.entryExists (pathSegments p) = true
      · simp [hv, he]
      · have he2 : fs.entryExists (pathSegments p) = false := by
          cases hb : fs.entryExists (pathSegments p)
          · rfl
          · exact absurd hb he
        simp [hv, he2]
  · intro e hv fs2
    unfold validateExistingPath
    rw [hv]

/-- Witness for claim C4: both directions at concrete inputs. -/
theorem existingPath_spec_witness :
    validateExistingPath ⟨fun _ => true, fun _ => true⟩ "/a/b" = .ok () ∧
    validateExistingPath ⟨fun _ => false, fun _ => false⟩ "relative" =
      .error .notAbsolute :=
  ⟨(existingPath_spec ⟨fun _ => true, fun _ => true⟩ "/a/b").1.mpr
      ⟨by decide, by decide⟩,
   (existingPath_spec ⟨fun _ => false, fun _ => false⟩ "relative").2
      .notAbsolute (by decide) _⟩

/-- Claim C3: on any filesystem state whose root directory exists,
`validate_writable_path p` succeeds iff `p` passes `validate_unix_path` and
either `p` exists with its owner-write bit set, or `p` does not exist, its
parent exists, and the parent's owner-write bit is set. -/
theorem writablePath_spec (fs : FsState) (hroot : fs.entryExists [] = true)
    (p : String) :
    validateWritablePath fs p = .ok () ↔
      (validateUnixPath p = .ok () ∧
        ((fs.entryExists (pathSegments p) = true ∧
          fs.ownerWritable (pathSegments p) = true) ∨
         (fs.entryExists (pathSegments p) = false ∧
          fs.entryExists ((pathSegments p).dropLast) = true ∧
          fs.ownerWritable ((pathSegments p).dropLast) = true))) := by
  unfold validateWritablePath
  cases hv : validateUnixPath p with
  | error e => simp [hv]
  | ok u =>
    cases u
    cases he : fs.entryExists (pathSegments p) with
    | true =>
      cases hw : fs.ownerWritable (pathSegments p) with
      | true => simp [hv, he, hw]
      | false => simp [hv, he, hw]
    | false =>
      by_cases hc : pathSegments p = []
      · rw [hc] at he
        rw [hroot] at he
        exact absurd he (by decide)
      · cases hpe : fs.entryExists ((pathSegments p).dropLast) with
        | true =>
          cases hpw : fs.ownerWritable ((pathSegments p).dropLast) with
          | true => simp [hv, he, hc, hpe, hpw]
          | false => simp [hv, he, hc, hpe, hpw]
        | false => simp [hv, he, hc, hpe]

/-- Witness for claim C3: a not-yet-existing file directly under an existing
writable root validates as writable. -/
theorem writablePath_spec_witness :
    validateWritablePath ⟨fun c => c == [], fun _ => true⟩ "/newfile" = .ok () :=
  (writablePath_spec ⟨fun c => c == [], fun _ => true⟩ (by decide) "/newfile").mpr
    (by decide)

/-! Claim C10: URL construction. -/

theorem trimStartSlash_slash_append (p : String) :
    trimStartSlash ("/" ++ p) = trimStartSlash p := by
  cases p with
  | mk data =>
    show String.mk (List.dropWhile _ ('/' :: data)) = _
    simp [trimStartSlash, List.dropWhile]

/-- Claim C10: `FirecrackerClient::url` builds the base URL with trailing
slashes removed, a single `/`, and the path with leading slashes removed;
consequently the built URL string, and hence the parsed URL, is the same for
`p` and `"/" ++ p`. -/
theorem url_slash_placement (b p : String) :
    clientUrlString b p = trimEndSlash b ++ "/" ++ trimStartSlash p ∧
    clientUrlString b ("/" ++ p) = clientUrlString b p := by
  refine ⟨rfl, ?_⟩
  unfold clientUrlString
  rw [trimStartSlash_slash_append]

/-- Claim C1 (code bug evidence): `put_drive` (src/drive.rs) never calls
`drive.validate()`, so a drive whose relative `path_on_host` would fail
validation is still dispatched and the operation reports the dispatcher's
success instead of a validation error, while `put_logger` (src/logger.rs)
does short-circuit before dispatch on an equally invalid path. -/
theorem putDrive_dispatches_without_validation :
    driveValidate ⟨fun _ => false, fun _ => false⟩
        ⟨none, "rootfs", none, false, true, none, "relative/path", none, none⟩ ≠ .ok () ∧
    (putDrive (.ok ⟨204, ""⟩) "rootfs"
        ⟨none, "rootfs", none, false, true, none, "relative/path", none, none⟩).2 = true ∧
    (putDrive (.ok ⟨204, ""⟩) "rootfs"
        ⟨none, "rootfs", none, false, true, none, "relative/path", none, none⟩).1 = .ok () ∧
    (putLogger ⟨fun _ => false, fun _ => false⟩ (.ok ⟨204, ""⟩)
        ⟨"relative/log", none, none, none⟩).2 = false := by
  decide

/-- Claim C2 (code bug evidence): the derived `Vsock::validate` of
src/models.rs has no range check on `guest_cid`: the descriptor with CID 2
validates successfully, validation is entirely independent of the CID, and
`put_vsock` dispatches such a descriptor. -/
theorem vsockValidate_cid_two_accepted :
    vsockValidate ⟨2, "/tmp/vsock.sock", none⟩ = .ok () ∧
    (∀ cid cid2 : Nat, ∀ uds : String, ∀ vid vid2 : Option String,
      vsockValidate ⟨cid, uds, vid⟩ = vsockValidate ⟨cid2, uds, vid2⟩) ∧
    (putVsock (.ok ⟨204, ""⟩) ⟨2, "/tmp/vsock.sock", none⟩).2 = true := by
  refine ⟨by decide, ?_, by decide⟩
  intro cid cid2 uds vid vid2
  rfl

/-- Claim C7: a `Drive` whose `partuuid` is `"not-a-uuid"` and whose
well-formed `path_on_host` names no existing filesystem entry produces an
aggregate validation error with exactly two field entries: `partuuid`
(format) and `path_on_host` (not found). -/
theorem drive_aggregates_two_errors (fs : FsState) (d : Drive)
    (hu : d.partuuid = some "not-a-uuid")
    (hp : validateUnixPath d.path_on_host = .ok ())
    (he : fs.entryExists (pathSegments d.path_on_host) = false) :
    (driveValidateErrors fs d).length = 2 ∧
    driveValidate fs d =
      .error [("partuuid", "Invalid partition UUID format"),
              ("path_on_host", "Path does not exist")] := by
  have hun : uuidMatch "not-a-uuid" = false := by decide
  have hex : validateExistingPath fs d.path_on_host = .error .pathNotFound := by
    unfold validateExistingPath
    rw [hp]
    simp [he]
  have h1 : driveValidateErrors fs d =
      [("partuuid", "Invalid partition UUID format"),
       ("path_on_host", "Path does not exist")] := by
    unfold driveValidateErrors
    rw [hu, hex]
    simp [hun, PathError.message]
  refine ⟨?_, ?_⟩
  · rw [h1]
    rfl
  · unfold driveValidate
    rw [h1]
    rfl

/-- Witness for claim C7 at a concrete drive and filesystem state. -/
theorem drive_aggregates_two_errors_witness :
    driveValidate ⟨fun _ => false, fun _ => false⟩
        ⟨none, "rootfs", none, false, true, some "not-a-uuid", "/nonexistent",
         none, none⟩ =
      .error [("partuuid", "Invalid partition UUID format"),
              ("path_on_host", "Path does not exist")] :=
  (drive_aggregates_two_errors ⟨fun _ => false, fun _ => false⟩
      ⟨none, "rootfs", none, false, true, some "not-a-uuid", "/nonexistent",
       none, none⟩
      rfl (by decide) rfl).2

/-- Claim C8 counterexample: the inherent `create_sync_action` of src/lib.rs
maps the 2xx status 200 to an Api error rather than success. -/
theorem createSyncAction_200_counterexample :
    isSuccessStatus 200 = true ∧
    (createSyncAction (.ok ⟨200, "ok"⟩) ⟨"InstanceStart"⟩).1 =
      .error (.api 200 "ok") := by
  decide

/-- Claim C8 (amended): the shared response mapping of the resource
operations treats every 2xx status as success and wraps every non-2xx status
as an Api error carrying the numeric status and the raw body; the inherent
`create_sync_action` of src/lib.rs instead treats exactly status 204 as
success and wraps every other status, 2xx included, the same way. -/
theorem status_mapping (r : HttpResponse) (a : InstanceActionInfo) :
    (isSuccessStatus r.status = true → mapDispatch (.ok r) = .ok ()) ∧
    (isSuccessStatus r.status = false →
      mapDispatch (.ok r) = .error (.api r.status r.body)) ∧
    ((createSyncAction (.ok r) a).1 =
      if r.status = 204 then .ok () else .error (.api r.status r.body)) := by
  refine ⟨?_, ?_, rfl⟩
  · intro h
    simp [mapDispatch, h]
  · intro h
    simp [mapDispatch, h]

/-- Witness for the amended claim C8 at statuses 200, 404 and 204. -/
theorem status_mapping_witness :
    mapDispatch (.ok ⟨200, "x"⟩) = .ok () ∧
    mapDispatch (.ok ⟨404, "e"⟩) = .error (.api 404 "e") ∧
    (createSyncAction (.ok ⟨204, ""⟩) ⟨"InstanceStart"⟩).1 = .ok () :=
  ⟨(status_mapping ⟨200, "x"⟩ ⟨"InstanceStart"⟩).1 (by decide),
   (status_mapping ⟨404, "e"⟩ ⟨"InstanceStart"⟩).2.1 (by decide),
   by
     have h := (status_mapping ⟨204, ""⟩ ⟨"InstanceStart"⟩).2.2
     simpa using h⟩

end Firecracker
